import Mathlib

/-!
Shallow embedding of the bodhi update service layer
(`bodhi/services/updates.py`) and proofs about its request-transition,
creation/edit and query/filter/pagination logic.

Machine-level conventions of the embedding:
* timestamps are natural numbers (the code only compares them with `>=`);
* nullable database columns are `Option`; a SQL comparison against NULL
  is false;
* an ORM query over the update table is a Lean `List Update`, a
  conditionally appended `filter(...)` clause is a `List.filter`, a join
  followed by `or_` of equalities is an existential over the joined
  collection;
* Python exceptions are `Except` values; `request.errors.add(loc, field,
  msg)` is an `error` constructor carrying the three strings.
-/

namespace Bodhi

/-- `bodhi.models.UpdateRequest` (referenced by `set_request`). -/
inductive UpdateRequest where
  | none
  | testing
  | stable
  | obsolete
  | revoke
deriving DecidableEq, Repr

/-- `bodhi.models.UpdateStatus`. -/
inductive UpdateStatus where
  | pending
  | testing
  | stable
  | obsolete
  | unpushed
  | side_tag_active
  | side_tag_expired
deriving DecidableEq, Repr

/-- `bodhi.models.UpdateType`. -/
inductive UpdateType where
  | bugfix
  | enhancement
  | security
  | newpackage
deriving DecidableEq, Repr

/-- `bodhi.models.Build`: an NVR string plus a reference to one Package
(`Build.package`), as used by the `packages` and `builds` query joins. -/
structure Build where
  nvr : String
  package : String
deriving DecidableEq, Repr

/-- The fields of `bodhi.models.Update` read or written by the service
code under verification. -/
structure Update where
  title : String
  status : UpdateStatus
  request : UpdateRequest
  locked : Bool
  type : UpdateType
  severity : String
  suggest : String
  user : String
  release : String
  critpath : Bool
  pushed : Bool
  date_submitted : Nat
  date_modified : Option Nat
  date_approved : Option Nat
  date_pushed : Option Nat
  builds : List Build
  bugs : List Nat
  cves : List String
  comments : List String
deriving DecidableEq, Repr

/-- Modelled from the spec: the model-layer method
`bodhi.models.Update.set_request` is not under `src/` (only its caller,
the `set_request` view, is).  Per the spec's Request Transition Engine
contract, once the view's lock and requirement checks have passed the
method succeeds: it sets `request`, appends an audit comment attributing
the change to the actor, and updates `date_modified`. -/
def Update.set_request_model (u : Update) (action : UpdateRequest)
    (actor : String) (now : Nat) : Update :=
  { u with
    request := action
    comments := u.comments ++ [actor]
    date_modified := some now }

/-- Outcome of the `set_request` view: either `request.errors.add(loc,
field, msg)` was called (and the view returned early), or the view
returned `dict(update=update)`. -/
inductive SetRequestOutcome where
  | error (location field msg : String)
  | ok (update : Update)
deriving DecidableEq, Repr

/-- The `set_request` view of `bodhi/services/updates.py`.

`checkResult` stands for the value returned by
`update.check_requirements(request.db, settings)` (a pair of a boolean
and a reason string; the checker itself lives in `bodhi.models`, outside
`src/`, and the view only consumes its result). -/
def set_request_view (checkResult : Bool × String) (u : Update)
    (action : UpdateRequest) (userName : String) (now : Nat) :
    SetRequestOutcome :=
  if u.locked then
    .error "body" "request" "Can't change request on a locked update"
  else if action = UpdateRequest.stable then
    if checkResult.1 = false then
      .error "body" "request" ("Requirement not met " ++ checkResult.2)
    else
      .ok (u.set_request_model action userName now)
  else
    .ok (u.set_request_model action userName now)

/-- A concrete unlocked update used by witnesses. -/
def sampleUpdate : Update :=
  { title := "bodhi-2.0-1.fc30"
    status := UpdateStatus.testing
    request := UpdateRequest.none
    locked := false
    type := UpdateType.bugfix
    severity := "unspecified"
    suggest := "unspecified"
    user := "alice"
    release := "F30"
    critpath := false
    pushed := false
    date_submitted := 10
    date_modified := Option.none
    date_approved := Option.none
    date_pushed := Option.none
    builds := [{ nvr := "bodhi-2.0-1.fc30", package := "bodhi" }]
    bugs := [1234]
    cves := ["CVE-2020-0001"]
    comments := [] }

/-- The exceptions the `new_update` view distinguishes: a
`LockedUpdateException` (caught first, its string rendered with
`"%s" % e`) versus any other `Exception`. -/
inductive StepException where
  | lockedUpdateException (msg : String)
  | other (msg : String)
deriving DecidableEq, Repr

/-- The validated POST body consumed by `new_update`: the `edited`
marker (absent, or present with a possibly empty title) and the build
NVR list.  The remaining validated fields are only passed through to
the model layer. -/
structure Submission where
  edited : Option String
  builds : List String
deriving DecidableEq, Repr

/-- The `if data.get('edited'):` dispatch of `new_update`: Python
truthiness of the `edited` string decides between `Update.edit` and
`Update.new` (an absent or empty marker is falsy and takes the create
path).  `editFn` and `newFn` stand for `Update.edit(request, data)` and
`Update.new(request, data)` of `bodhi.models`, each of which may raise. -/
def createStep (editFn newFn : Submission → Except StepException Update)
    (data : Submission) : Except StepException Update :=
  if (match data.edited with
      | some e => !(e = "")
      | Option.none => false) then
    editFn data
  else
    newFn data

/-- `s.obsolete == true` or `s.unpushed`: the terminal statuses the
obsoletion sweep skips. -/
def isTerminal (s : UpdateStatus) : Bool :=
  decide (s = UpdateStatus.obsolete) || decide (s = UpdateStatus.unpushed)

/-- Modelled from the spec: the candidate predicate of
`Update.obsolete_older_updates` (the method lives in `bodhi.models`,
outside `src/`).  A candidate shares at least one Package (via
Build→Package) and the same Release as the new update, is not the new
update itself, is not in a terminal status, and does not have a
pending `stable` request. -/
def isObsoletionCandidate (up c : Update) : Bool :=
  !(decide (c = up))
  && decide (c.release = up.release)
  && c.builds.any (fun b => up.builds.any fun b2 => decide (b.package = b2.package))
  && !(isTerminal c.status)
  && !(decide (c.request = UpdateRequest.stable))

/-- Candidate ordering of the obsoletion sweep: ascending
`date_submitted` (oldest first). -/
def dateAsc (a b : Update) : Prop :=
  a.date_submitted ≤ b.date_submitted

instance : DecidableRel dateAsc := fun a b =>
  Nat.decLe a.date_submitted b.date_submitted

/-- Modelled from the spec: the candidate sequence
`obsolete_older_updates` processes, oldest first. -/
def obsoletionCandidates (cands : List Update) (up : Update) : List Update :=
  List.insertionSort dateAsc (cands.filter (isObsoletionCandidate up))

/-- Result of the obsoletion sweep: the updates it obsoleted and the
failure messages it collected. -/
structure ObsoletionOutcome where
  obsoleted : List Update
  failures : List String
deriving DecidableEq, Repr

/-- Modelled from the spec: `bodhi.models.Update.obsolete_older_updates`
is not under `src/` (only its caller, the `new_update` view, is).  Per
the spec's Obsoletion Engine contract it processes each candidate
independently, oldest first; a per-candidate failure is collected, not
propagated, so the sweep as a whole never raises.  The per-candidate
transition (obsolete the update, clear its request, comment) is
abstracted as `act`, which may fail with a message. -/
def obsolete_older_updates (act : Update → Except String Update)
    (cands : List Update) (up : Update) : ObsoletionOutcome :=
  (obsoletionCandidates cands up).foldl
    (fun acc c =>
      match act c with
      | .ok c2 => { acc with obsoleted := acc.obsoleted ++ [c2] }
      | .error m => { acc with failures := acc.failures ++ [m] })
    { obsoleted := [], failures := [] }

/-- Outcome of the `new_update` view.  `result` is either the
`request.errors.add('body', 'builds', msg)` record (error path) or the
returned update; `obsoleteCalls` logs the arguments on which
`up.obsolete_older_updates(request)` was invoked; `obsoletion` is the
sweep's outcome when it ran. -/
structure NewUpdateOutcome where
  result : Except (String × String × String) Update
  obsoleteCalls : List Update
  obsoletion : Option ObsoletionOutcome
deriving Repr

/-- The `new_update` view of `bodhi/services/updates.py`: run the
create/edit step; on `LockedUpdateException e` report
`('body', 'builds', "%s" % e)` and return; on any other exception
report `('body', 'builds', 'Unable to create update')` and return;
otherwise invoke the obsoletion sweep once on the resulting update and
return it. -/
def new_update_view (act : Update → Except String Update)
    (cands : List Update)
    (editFn newFn : Submission → Except StepException Update)
    (data : Submission) : NewUpdateOutcome :=
  match createStep editFn newFn data with
  | .error (StepException.lockedUpdateException msg) =>
      { result := .error ("body", "builds", msg)
        obsoleteCalls := []
        obsoletion := Option.none }
  | .error (StepException.other _) =>
      { result := .error ("body", "builds", "Unable to create update")
        obsoleteCalls := []
        obsoletion := Option.none }
  | .ok up =>
      { result := .ok up
        obsoleteCalls := [up]
        obsoletion := some (obsolete_older_updates act cands up) }

/-- `needle` is an initial segment of the second list. -/
def charsStart : List Char → List Char → Bool
  | [], _ => true
  | _ :: _, [] => false
  | a :: as, b :: bs => decide (a = b) && charsStart as bs

/-- `needle` occurs contiguously somewhere in the second list. -/
def charsContain (needle : List Char) : List Char → Bool
  | [] => charsStart needle []
  | b :: bs => charsStart needle (b :: bs) || charsContain needle bs

/-- SQL `title LIKE '%' || pat || '%'` as produced by
`Update.title.like('%%%s%%' % like)`: substring containment. -/
def likeMatch (title pat : String) : Bool :=
  charsContain pat.toList title.toList

/-- The validated query parameters of `query_updates`: every filter is
optional (`data.get(...)` yields `None` when absent). -/
structure Filters where
  approved_since : Option Nat := Option.none
  bugs : Option (List Nat) := Option.none
  critpath : Option Bool := Option.none
  cves : Option (List String) := Option.none
  like : Option String := Option.none
  locked : Option Bool := Option.none
  modified_since : Option Nat := Option.none
  packages : Option (List String) := Option.none
  builds : Option (List String) := Option.none
  pushed : Option Bool := Option.none
  pushed_since : Option Nat := Option.none
  releases : Option (List String) := Option.none
  release : Option String := Option.none
  request : Option UpdateRequest := Option.none
  severity : Option String := Option.none
  status : Option UpdateStatus := Option.none
  submitted_since : Option Nat := Option.none
  suggest : Option String := Option.none
  type : Option UpdateType := Option.none
  user : Option String := Option.none
deriving DecidableEq, Repr

/-- The query with no filter supplied. -/
def emptyFilters : Filters := {}

/-- `Update.date_approved >= approved_since` (false on a NULL column). -/
def pApprovedSince (t : Nat) (u : Update) : Bool :=
  match u.date_approved with
  | Option.none => false
  | some d => decide (t ≤ d)

/-- `join(Update.bugs)` + `or_(Bug.bug_id == b for b in bugs)`. -/
def pBugs (ids : List Nat) (u : Update) : Bool :=
  u.bugs.any fun b => ids.any fun i => decide (b = i)

/-- `Update.critpath == critpath`. -/
def pCritpath (c : Bool) (u : Update) : Bool :=
  decide (u.critpath = c)

/-- `join(Update.cves)` + `or_(CVE.cve_id == c for c in cves)`. -/
def pCves (ids : List String) (u : Update) : Bool :=
  u.cves.any fun cv => ids.any fun i => decide (cv = i)

/-- `Update.title.like('%%%s%%' % like)`. -/
def pLike (pat : String) (u : Update) : Bool :=
  likeMatch u.title pat

/-- `Update.locked == locked`. -/
def pLocked (b : Bool) (u : Update) : Bool :=
  decide (u.locked = b)

/-- `Update.date_modified >= modified_since` (false on a NULL column). -/
def pModifiedSince (t : Nat) (u : Update) : Bool :=
  match u.date_modified with
  | Option.none => false
  | some d => decide (t ≤ d)

/-- `join(Update.builds).join(Build.package)` +
`or_(Package.name == p for p in packages)`. -/
def pPackages (ps : List String) (u : Update) : Bool :=
  u.builds.any fun b => ps.any fun p => decide (b.package = p)

/-- `join(Update.builds)` + `or_(Build.nvr == n for n in builds)`. -/
def pBuilds (ns : List String) (u : Update) : Bool :=
  u.builds.any fun b => ns.any fun n => decide (b.nvr = n)

/-- `Update.pushed == pushed`. -/
def pPushed (b : Bool) (u : Update) : Bool :=
  decide (u.pushed = b)

/-- `Update.date_pushed >= pushed_since` (false on a NULL column). -/
def pPushedSince (t : Nat) (u : Update) : Bool :=
  match u.date_pushed with
  | Option.none => false
  | some d => decide (t ≤ d)

/-- `or_(Update.release == r for r in releases)`. -/
def pReleases (rs : List String) (u : Update) : Bool :=
  rs.any fun r => decide (u.release = r)

/-- `Update.release == release` (singular bodhi1 backwards-compat
alias). -/
def pRelease (r : String) (u : Update) : Bool :=
  decide (u.release = r)

/-- `Update.request == request`. -/
def pRequest (r : UpdateRequest) (u : Update) : Bool :=
  decide (u.request = r)

/-- `Update.severity == severity`. -/
def pSeverity (s : String) (u : Update) : Bool :=
  decide (u.severity = s)

/-- `Update.status == status`. -/
def pStatus (s : UpdateStatus) (u : Update) : Bool :=
  decide (u.status = s)

/-- `Update.date_submitted >= submitted_since`. -/
def pSubmittedSince (t : Nat) (u : Update) : Bool :=
  decide (t ≤ u.date_submitted)

/-- `Update.suggest == suggest`. -/
def pSuggest (s : String) (u : Update) : Bool :=
  decide (u.suggest = s)

/-- `Update.type == type`. -/
def pType (t : UpdateType) (u : Update) : Bool :=
  decide (u.type = t)

/-- `Update.user == user`. -/
def pUser (s : String) (u : Update) : Bool :=
  decide (u.user = s)

/-- One conditionally appended clause of `query_updates`: when the
parameter is absent the query is left untouched, otherwise the matching
`query.filter(...)` is applied. -/
def filterStep {α : Type} (o : Option α) (p : α → Update → Bool)
    (q : List Update) : List Update :=
  match o with
  | Option.none => q
  | some a => q.filter (p a)

/-- The filter pipeline of `query_updates`, one `filterStep` per
optional parameter, in source order. -/
def applyFilters (d : Filters) (q0 : List Update) : List Update :=
  let q := filterStep d.approved_since pApprovedSince q0
  let q := filterStep d.bugs pBugs q
  let q := filterStep d.critpath pCritpath q
  let q := filterStep d.cves pCves q
  let q := filterStep d.like pLike q
  let q := filterStep d.locked pLocked q
  let q := filterStep d.modified_since pModifiedSince q
  let q := filterStep d.packages pPackages q
  let q := filterStep d.builds pBuilds q
  let q := filterStep d.pushed pPushed q
  let q := filterStep d.pushed_since pPushedSince q
  let q := filterStep d.releases pReleases q
  let q := filterStep d.release pRelease q
  let q := filterStep d.request pRequest q
  let q := filterStep d.severity pSeverity q
  let q := filterStep d.status pStatus q
  let q := filterStep d.submitted_since pSubmittedSince q
  let q := filterStep d.suggest pSuggest q
  let q := filterStep d.type pType q
  let q := filterStep d.user pUser q
  q

/-- A supplied filter's predicate; an absent filter holds of every
update. -/
def optB {α : Type} (o : Option α) (p : α → Bool) : Bool :=
  match o with
  | Option.none => true
  | some a => p a

/-- The conjunction, across all twenty optional parameters, of the
single-filter predicates. -/
def matchesAll (d : Filters) (u : Update) : Bool :=
  optB d.approved_since (pApprovedSince · u)
  && optB d.bugs (pBugs · u)
  && optB d.critpath (pCritpath · u)
  && optB d.cves (pCves · u)
  && optB d.like (pLike · u)
  && optB d.locked (pLocked · u)
  && optB d.modified_since (pModifiedSince · u)
  && optB d.packages (pPackages · u)
  && optB d.builds (pBuilds · u)
  && optB d.pushed (pPushed · u)
  && optB d.pushed_since (pPushedSince · u)
  && optB d.releases (pReleases · u)
  && optB d.release (pRelease · u)
  && optB d.request (pRequest · u)
  && optB d.severity (pSeverity · u)
  && optB d.status (pStatus · u)
  && optB d.submitted_since (pSubmittedSince · u)
  && optB d.suggest (pSuggest · u)
  && optB d.type (pType · u)
  && optB d.user (pUser · u)

/-- `order_by(Update.date_submitted.desc())`: the sort relation. -/
def dateDesc (a b : Update) : Prop :=
  b.date_submitted ≤ a.date_submitted

instance : DecidableRel dateDesc := fun a b =>
  Nat.decLe b.date_submitted a.date_submitted

instance : IsTotal Update dateDesc :=
  ⟨fun a b => (Nat.le_total b.date_submitted a.date_submitted).imp id id⟩

instance : IsTrans Update dateDesc :=
  ⟨fun _ _ _ hab hbc => Nat.le_trans hbc hab⟩

/-- What `query_updates` returns (the `chrome` / `display_user`
pass-through fields carry no query semantics and are omitted). -/
structure ListQueryResult where
  updates : List Update
  page : Nat
  pages : Nat
  rows_per_page : Nat
  total : Nat
deriving DecidableEq, Repr

/-- The `query_updates` view of `bodhi/services/updates.py`: apply the
filter pipeline, order by `date_submitted` descending, count the total,
compute `pages = int(math.ceil(total / float(rows_per_page)))` (exact
ceiling division in this embedding) and slice with
`offset(rows_per_page * (page - 1)).limit(rows_per_page)`. -/
def query_updates (d : Filters) (page rows_per_page : Nat)
    (db : List Update) : ListQueryResult :=
  let q := applyFilters d db
  let q := List.insertionSort dateDesc q
  let total := q.length
  let pages := (total + rows_per_page - 1) / rows_per_page
  let items := (q.drop (rows_per_page * (page - 1))).take rows_per_page
  { updates := items
    page := page
    pages := pages
    rows_per_page := rows_per_page
    total := total }

end Bodhi

namespace Bodhi

/-- Helper: a conditionally appended clause is an unconditional filter
by the corresponding optional predicate. -/
theorem filterStep_eq {α : Type} (o : Option α) (p : α → Update → Bool)
    (q : List Update) :
    filterStep o p q = q.filter (fun u => optB o (p · u)) := by
  cases o with
  | none => simp [filterStep, optB]
  | some a => rfl

/-- Helper: the whole filter pipeline is one filter by the conjunction
of the supplied predicates. -/
theorem applyFilters_eq_filter (d : Filters) (db : List Update) :
    applyFilters d db = db.filter (matchesAll d) := by
  unfold applyFilters
  simp only [filterStep_eq, List.filter_filter]
  exact List.filter_congr (fun u _ => by unfold matchesAll; ac_rfl)

/-- C1: for every update with `locked = true`, the `set_request` view
fails with the locked-update error regardless of the requested state,
and its outcome does not depend on the requirement checker's result
(the checker is never consulted for a locked update). -/
theorem set_request_locked_precedence
    (cr cr' : Bool × String) (u : Update) (action : UpdateRequest)
    (userName : String) (now : Nat) (h : u.locked = true) :
    set_request_view cr u action userName now =
      .error "body" "request" "Can't change request on a locked update"
    ∧ set_request_view cr u action userName now =
      set_request_view cr' u action userName now := by
  unfold set_request_view
  rw [h]
  simp

theorem set_request_locked_precedence_witness :
    ({ sampleUpdate with locked := true } : Update).locked = true
    ∧ set_request_view (true, "") { sampleUpdate with locked := true }
        UpdateRequest.stable "alice" 42 =
      .error "body" "request" "Can't change request on a locked update" :=
  ⟨rfl,
    (set_request_locked_precedence (true, "") (false, "x")
      { sampleUpdate with locked := true }
      UpdateRequest.stable "alice" 42 rfl).1⟩

/-- C2: for every unlocked update, a `stable` request through the
`set_request` view succeeds iff the requirement checker returned ok; on
failure the reported error is exactly `"Requirement not met "` followed
by the checker's reason string (the reason is surfaced verbatim). -/
theorem set_request_stable_requirements
    (ok : Bool) (reason : String) (u : Update) (userName : String)
    (now : Nat) (h : u.locked = false) :
    ((∃ u2, set_request_view (ok, reason) u UpdateRequest.stable userName now
        = .ok u2) ↔ ok = true)
    ∧ (ok = false →
        set_request_view (ok, reason) u UpdateRequest.stable userName now =
          .error "body" "request" ("Requirement not met " ++ reason)) := by
  unfold set_request_view
  rw [h]
  cases ok <;> simp

theorem set_request_stable_requirements_witness :
    sampleUpdate.locked = false
    ∧ set_request_view (false, "Requires 2 positive karma") sampleUpdate
        UpdateRequest.stable "alice" 42 =
      .error "body" "request"
        ("Requirement not met " ++ "Requires 2 positive karma") :=
  ⟨rfl,
    (set_request_stable_requirements false "Requires 2 positive karma"
      sampleUpdate "alice" 42 rfl).2 rfl⟩

/-- C7: within `new_update`, a `LockedUpdateException` raised by the
create/edit step is reported with the exception's own message (which
carries the offending identifier), while any other exception is
reported with the constant message `'Unable to create update'`,
independent of the exception's detail. -/
theorem new_update_exception_reporting
    (act : Update → Except String Update) (cands : List Update)
    (editFn newFn : Submission → Except StepException Update)
    (data : Submission) (msg : String) :
    (createStep editFn newFn data =
        .error (StepException.lockedUpdateException msg) →
      (new_update_view act cands editFn newFn data).result =
        .error ("body", "builds", msg))
    ∧ (createStep editFn newFn data = .error (StepException.other msg) →
      (new_update_view act cands editFn newFn data).result =
        .error ("body", "builds", "Unable to create update")) := by
  constructor <;> intro h <;> simp [new_update_view, h]

theorem new_update_exception_reporting_witness :
    (new_update_view (fun c => .ok c) []
      (fun _ => .error (StepException.lockedUpdateException
        "Can't add builds to a locked update: bodhi-2.0-1.fc30"))
      (fun _ => .ok sampleUpdate)
      { edited := some "bodhi-2.0-1.fc30", builds := [] }).result =
      .error ("body", "builds",
        "Can't add builds to a locked update: bodhi-2.0-1.fc30")
    ∧ (new_update_view (fun c => .ok c) []
      (fun _ => .ok sampleUpdate)
      (fun _ => .error (StepException.other "IntegrityError: secret detail"))
      { edited := Option.none, builds := ["bodhi-2.0-1.fc30"] }).result =
      .error ("body", "builds", "Unable to create update") :=
  ⟨(new_update_exception_reporting (fun c => .ok c) []
      (fun _ => .error (StepException.lockedUpdateException
        "Can't add builds to a locked update: bodhi-2.0-1.fc30"))
      (fun _ => .ok sampleUpdate)
      { edited := some "bodhi-2.0-1.fc30", builds := [] }
      "Can't add builds to a locked update: bodhi-2.0-1.fc30").1 rfl,
   (new_update_exception_reporting (fun c => .ok c) []
      (fun _ => .ok sampleUpdate)
      (fun _ => .error (StepException.other "IntegrityError: secret detail"))
      { edited := Option.none, builds := ["bodhi-2.0-1.fc30"] }
      "IntegrityError: secret detail").2 rfl⟩

/-- C8: whenever the create/edit step of `new_update` succeeds, the
obsoletion sweep is invoked exactly once on the resulting update before
it is returned; whenever the step fails, the sweep is not invoked. -/
theorem new_update_obsoletion_invocation
    (act : Update → Except String Update) (cands : List Update)
    (editFn newFn : Submission → Except StepException Update)
    (data : Submission) :
    (∀ up, createStep editFn newFn data = .ok up →
      (new_update_view act cands editFn newFn data).obsoleteCalls = [up]
      ∧ (new_update_view act cands editFn newFn data).result = .ok up)
    ∧ (∀ e, createStep editFn newFn data = .error e →
      (new_update_view act cands editFn newFn data).obsoleteCalls = []) := by
  constructor
  · intro up h
    simp [new_update_view, h]
  · intro e h
    cases e <;> simp [new_update_view, h]

theorem new_update_obsoletion_invocation_witness :
    (new_update_view (fun c => .ok c) []
      (fun _ => .ok sampleUpdate) (fun _ => .ok sampleUpdate)
      { edited := Option.none, builds := ["bodhi-2.0-1.fc30"] }).obsoleteCalls
      = [sampleUpdate]
    ∧ (new_update_view (fun c => .ok c) []
      (fun _ => .ok sampleUpdate)
      (fun _ => .error (StepException.other "boom"))
      { edited := Option.none, builds := ["bodhi-2.0-1.fc30"] }).obsoleteCalls
      = [] :=
  ⟨((new_update_obsoletion_invocation (fun c => .ok c) []
      (fun _ => .ok sampleUpdate) (fun _ => .ok sampleUpdate)
      { edited := Option.none, builds := ["bodhi-2.0-1.fc30"] }).1
      sampleUpdate rfl).1,
   (new_update_obsoletion_invocation (fun c => .ok c) []
      (fun _ => .ok sampleUpdate)
      (fun _ => .error (StepException.other "boom"))
      { edited := Option.none, builds := ["bodhi-2.0-1.fc30"] }).2
      (StepException.other "boom") rfl⟩

/-- Helper: unrolling the sweep's fold for an arbitrary accumulator. -/
theorem obsoletion_foldl_eq (act : Update → Except String Update)
    (l : List Update) (acc : ObsoletionOutcome) :
    l.foldl
      (fun acc c =>
        match act c with
        | .ok c2 => { acc with obsoleted := acc.obsoleted ++ [c2] }
        | .error m => { acc with failures := acc.failures ++ [m] })
      acc =
      { obsoleted := acc.obsoleted ++ l.filterMap
          (fun c => match act c with
            | .ok c2 => some c2
            | .error _ => Option.none)
        failures := acc.failures ++ l.filterMap
          (fun c => match act c with
            | .ok _ => Option.none
            | .error m => some m) } := by
  induction l generalizing acc with
  | nil => simp
  | cons c l ih =>
      cases hc : act c <;>
        simp [List.foldl_cons, hc, ih, List.filterMap_cons]

/-- Helper: the sweep's outcome splits into the successful transitions
and the collected failures, in candidate order. -/
theorem obsolete_older_updates_spec (act : Update → Except String Update)
    (cands : List Update) (up : Update) :
    obsolete_older_updates act cands up =
      { obsoleted := (obsoletionCandidates cands up).filterMap
          (fun c => match act c with
            | .ok c2 => some c2
            | .error _ => Option.none)
        failures := (obsoletionCandidates cands up).filterMap
          (fun c => match act c with
            | .ok _ => Option.none
            | .error m => some m) } := by
  unfold obsolete_older_updates
  rw [obsoletion_foldl_eq]
  simp

/-- C9: a failure inside the obsoletion sweep never escalates: whenever
the create/edit step succeeds with `up`, the view returns `up` no
matter how the per-candidate transition fails, the outcome is the same
for any two transition functions as far as the returned result goes,
and the failures are collected in the sweep's outcome. -/
theorem new_update_obsoletion_nonfatal
    (act act' : Update → Except String Update) (cands : List Update)
    (editFn newFn : Submission → Except StepException Update)
    (data : Submission) (up : Update)
    (h : createStep editFn newFn data = .ok up) :
    (new_update_view act cands editFn newFn data).result = .ok up
    ∧ (new_update_view act cands editFn newFn data).result =
      (new_update_view act' cands editFn newFn data).result
    ∧ (new_update_view act cands editFn newFn data).obsoletion =
      some { obsoleted := (obsoletionCandidates cands up).filterMap
               (fun c => match act c with
                 | .ok c2 => some c2
                 | .error _ => Option.none)
             failures := (obsoletionCandidates cands up).filterMap
               (fun c => match act c with
                 | .ok _ => Option.none
                 | .error m => some m) } := by
  refine ⟨?_, ?_, ?_⟩
  · simp [new_update_view, h]
  · simp [new_update_view, h]
  · simp [new_update_view, h, obsolete_older_updates_spec]

theorem new_update_obsoletion_nonfatal_witness :
    createStep (fun _ => .ok sampleUpdate) (fun _ => .ok sampleUpdate)
      { edited := Option.none, builds := ["bodhi-2.0-1.fc30"] } =
      .ok sampleUpdate
    ∧ (new_update_view (fun _ => .error "database timeout") [sampleUpdate]
        (fun _ => .ok sampleUpdate) (fun _ => .ok sampleUpdate)
        { edited := Option.none, builds := ["bodhi-2.0-1.fc30"] }).result =
      .ok sampleUpdate :=
  ⟨rfl,
    (new_update_obsoletion_nonfatal (fun _ => .error "database timeout")
      (fun c => .ok c) [sampleUpdate]
      (fun _ => .ok sampleUpdate) (fun _ => .ok sampleUpdate)
      { edited := Option.none, builds := ["bodhi-2.0-1.fc30"] }
      sampleUpdate rfl).1⟩

/-- C10: `new_update` decides between create and edit by truthiness of
the `edited` marker: a present-but-empty marker is falsy and takes the
create path (`Update.new`), not the edit path. -/
theorem new_update_empty_edited_creates
    (editFn newFn : Submission → Except StepException Update)
    (data : Submission) (h : data.edited = some "") :
    createStep editFn newFn data = newFn data := by
  simp [createStep, h]

theorem new_update_empty_edited_creates_witness :
    ({ edited := some "", builds := ["bodhi-2.0-1.fc30"] } : Submission).edited
      = some ""
    ∧ createStep (fun _ => .error (StepException.other "edit path taken"))
        (fun _ => .ok sampleUpdate)
        { edited := some "", builds := ["bodhi-2.0-1.fc30"] }
      = .ok sampleUpdate :=
  ⟨rfl,
    new_update_empty_edited_creates
      (fun _ => .error (StepException.other "edit path taken"))
      (fun _ => .ok sampleUpdate)
      { edited := some "", builds := ["bodhi-2.0-1.fc30"] } rfl⟩

/-- C3: for positive `page` and `rows_per_page`, `query_updates`
computes `pages` as the exact ceiling of `total / rows_per_page` (so
`total = 0` gives `pages = 0`), `total` is the full filtered count,
the returned items are the slice at offset
`rows_per_page * (page - 1)`, and any page beyond `pages` yields an
empty item sequence while `total` still reflects the full count. -/
theorem query_pagination (d : Filters) (db : List Update)
    (page rpp : Nat) (hp : 0 < page) (hr : 0 < rpp) :
    (query_updates d page rpp db).total ≤
      rpp * (query_updates d page rpp db).pages
    ∧ rpp * (query_updates d page rpp db).pages <
      (query_updates d page rpp db).total + rpp
    ∧ ((query_updates d page rpp db).total = 0 →
      (query_updates d page rpp db).pages = 0)
    ∧ (query_updates d page rpp db).total = (applyFilters d db).length
    ∧ (query_updates d page rpp db).updates =
      ((List.insertionSort dateDesc (applyFilters d db)).drop
        (rpp * (page - 1))).take rpp
    ∧ ((query_updates d page rpp db).pages < page →
      (query_updates d page rpp db).updates = []) := by
  have htot : (query_updates d page rpp db).total =
      (applyFilters d db).length := by
    simp [query_updates, List.length_insertionSort]
  have hpages : (query_updates d page rpp db).pages =
      ((applyFilters d db).length + rpp - 1) / rpp := by
    simp [query_updates, List.length_insertionSort]
  have hupd : (query_updates d page rpp db).updates =
      ((List.insertionSort dateDesc (applyFilters d db)).drop
        (rpp * (page - 1))).take rpp := rfl
  rw [htot, hpages, hupd]
  have hdm := Nat.div_add_mod ((applyFilters d db).length + rpp - 1) rpp
  have hmod : ((applyFilters d db).length + rpp - 1) % rpp < rpp :=
    Nat.mod_lt _ hr
  have h1 : (applyFilters d db).length ≤
      rpp * (((applyFilters d db).length + rpp - 1) / rpp) := by omega
  have h2 : rpp * (((applyFilters d db).length + rpp - 1) / rpp) <
      (applyFilters d db).length + rpp := by omega
  refine ⟨h1, h2, ?_, rfl, rfl, ?_⟩
  · intro h0
    rw [h0]
    exact Nat.div_eq_of_lt (by omega)
  · intro hbeyond
    have hoff : (applyFilters d db).length ≤ rpp * (page - 1) := by
      have hmul : rpp * (((applyFilters d db).length + rpp - 1) / rpp) ≤
          rpp * (page - 1) :=
        Nat.mul_le_mul_left rpp (by omega)
      omega
    rw [List.drop_eq_nil_of_le, List.take_nil]
    rw [List.length_insertionSort]
    exact hoff

theorem query_pagination_witness :
    0 < 4 ∧ 0 < 10
    ∧ (query_updates emptyFilters 4 10 []).total ≤
      10 * (query_updates emptyFilters 4 10 []).pages
    ∧ ((query_updates emptyFilters 4 10 []).total = 0 →
      (query_updates emptyFilters 4 10 []).pages = 0) :=
  ⟨by decide, by decide,
    (query_pagination emptyFilters [] 4 10 (by decide) (by decide)).1,
    (query_pagination emptyFilters [] 4 10 (by decide) (by decide)).2.2.1⟩

/-- C4: supplying both the plural `releases` filter and its singular
legacy alias `release` applies both predicates conjunctively: an update
is returned iff it is in the table, its release is among the listed
releases, and its release equals the singular value (intersection, not
union). -/
theorem legacy_release_alias_and (db : List Update) (r0 : String)
    (rs : List String) (u : Update) :
    u ∈ applyFilters { releases := some rs, release := some r0 } db
    ↔ u ∈ db ∧ u.release ∈ rs ∧ u.release = r0 := by
  rw [applyFilters_eq_filter]
  simp [List.mem_filter, matchesAll, optB, pReleases, pRelease,
    List.any_eq_true, and_assoc]

/-- C5: the filter pipeline of `query_updates` equals a single filter
by the conjunction of all twenty optional predicates (absent filters
contribute the trivial predicate, supplied filters are ANDed), an
all-absent query is the identity, and each multi-value filter (bugs,
cves, packages, builds, releases) holds iff some listed value matches
(OR semantics within one filter). -/
theorem query_filter_composition (d : Filters) (db : List Update) :
    applyFilters d db = db.filter (matchesAll d)
    ∧ applyFilters emptyFilters db = db
    ∧ (∀ (u : Update) (ids : List Nat),
        pBugs ids u = true ↔ ∃ b ∈ u.bugs, b ∈ ids)
    ∧ (∀ (u : Update) (cs : List String),
        pCves cs u = true ↔ ∃ c ∈ u.cves, c ∈ cs)
    ∧ (∀ (u : Update) (ps : List String),
        pPackages ps u = true ↔ ∃ b ∈ u.builds, b.package ∈ ps)
    ∧ (∀ (u : Update) (ns : List String),
        pBuilds ns u = true ↔ ∃ b ∈ u.builds, b.nvr ∈ ns)
    ∧ (∀ (u : Update) (rs : List String),
        pReleases rs u = true ↔ u.release ∈ rs) := by
  refine ⟨applyFilters_eq_filter d db, rfl, ?_, ?_, ?_, ?_, ?_⟩
  · intro u ids
    simp [pBugs, List.any_eq_true]
  · intro u cs
    simp [pCves, List.any_eq_true]
  · intro u ps
    simp [pPackages, List.any_eq_true]
  · intro u ns
    simp [pBuilds, List.any_eq_true]
  · intro u rs
    simp [pReleases, List.any_eq_true]

/-- C6: for every filter combination and every page, the item sequence
returned by `query_updates` is ordered by `date_submitted` descending. -/
theorem query_ordering (d : Filters) (page rpp : Nat)
    (db : List Update) :
    List.Pairwise dateDesc (query_updates d page rpp db).updates := by
  have hs : List.Sorted dateDesc
      (List.insertionSort dateDesc (applyFilters d db)) :=
    List.sorted_insertionSort dateDesc (applyFilters d db)
  have hsub :
      List.Sublist
        (((List.insertionSort dateDesc (applyFilters d db)).drop
          (rpp * (page - 1))).take rpp)
        (List.insertionSort dateDesc (applyFilters d db)) :=
    List.Sublist.trans (List.take_sublist _ _) (List.drop_sublist _ _)
  exact List.Pairwise.sublist hsub hs

end Bodhi
